import Mathlib

/-!
Verification of the Octeon traffic-management (TM) control plane
(`src/plugins/dev_octeon/tm.c`).

The façade functions `oct_tm_sys_*` are translated directly from tm.c.
The vendor hardware-abstraction layer (the `roc_nix_tm_*` calls) and the
`tm.h` parameter types are not part of the provided sources; they are
modelled from the design document (spec.md): the vendor layer keeps a
per-port registry of TM nodes and shaper profiles plus a committed flag,
and refuses structural mutations while the hierarchy is committed.
Vendor-internal validation that the spec leaves open is represented by
explicit Boolean oracles (`allocOk`, `vendorOk`, ...): each oracle stands
for "this fallible external step succeeds".

Machine integers: node/parent IDs and levels are u32 in the source,
shaper rates/bursts are u64 in the vendor descriptor; arithmetic on them
is reduced modulo 2^32 / 2^64 where the source can overflow.

Error taxonomy (spec.md §7), mapped from the rc values / log contexts of
tm.c:
  * -ERANGE "dynamic update not supported", -EIO "hirearchy_exists"
      -> `committed`
  * -ERANGE "invalid_parent-id"          -> `invalidParent`
  * -EINVAL "node-id not found"          -> `notFound`
  * -EINVAL "delete_invalid_node-id"     -> `invalidId`
  * -EINVAL "shaper_exists"              -> `alreadyExists`
  * -ENOMEM                              -> `noMem`
  * -EINVAL "incomplete hierarchy"       -> `precondition`
  * any other vendor failure             -> `vendor`
-/

/-- `ROC_NIX_TM_NODE_ID_INVALID` is `UINT32_MAX`. -/
def ROC_NIX_TM_NODE_ID_INVALID : Nat := 4294967295

/-- `ROC_TM_LVL_ROOT` is level 0. -/
def ROC_TM_LVL_ROOT : Nat := 0

/-- 2^32, the modulus of u32 arithmetic. -/
def U32 : Nat := 4294967296

/-- 2^64, the modulus of u64 arithmetic. -/
def U64 : Nat := 18446744073709551616

/-- The error taxonomy of spec.md §7 (all surfaced as "internal" to the
caller; distinguished by rc and log context). -/
inductive TmErr where
  | committed
  | invalidParent
  | notFound
  | invalidId
  | alreadyExists
  | noMem
  | precondition
  | vendor
deriving DecidableEq, Repr

/-- A TM node descriptor: the fields of `struct roc_nix_tm_node` that
tm.c populates (id, parent_id, lvl, priority, weight,
shaper_profile_id); the free-callback is an ownership artefact with no
observable value and is omitted. -/
structure TmNode where
  id : Nat
  parent_id : Nat
  lvl : Nat
  priority : Nat
  weight : Nat
  shaper_profile_id : Nat
deriving DecidableEq, Repr

/-- A shaper profile descriptor: the fields of
`struct roc_nix_tm_shaper_profile` that tm.c populates. -/
structure ShaperProfile where
  id : Nat
  commit_rate : Nat
  commit_sz : Nat
  peak_rate : Nat
  peak_sz : Nat
  pkt_len_adj : Int
  pkt_mode : Nat
deriving DecidableEq, Repr

/-- Modelled from the spec: the vendor NIC context `nix`. It owns the
node registry, the shaper-profile registry and the per-port hierarchy
state (`UNCOMMITTED`/`COMMITTED`, here a Bool).  `leafLvl` is the
hardware-fixed level that the vendor's `roc_nix_tm_lvl_is_leaf` query
designates as the leaf level. -/
structure Nix where
  committed : Bool
  nodes : List TmNode
  profiles : List ShaperProfile
  leafLvl : Nat
deriving DecidableEq, Repr

/-- `tm_node_params_t`: only `shaper_profile_id` is read by tm.c. -/
structure TmNodeParams where
  shaper_profile_id : Nat
deriving DecidableEq, Repr

/-- `tm_shaper_params_t`: the fields read by
`oct_tm_sys_shaper_profile_create`. -/
structure TmShaperParams where
  shaper_id : Nat
  commit_rate : Nat
  commit_burst_size : Nat
  peak_rate : Nat
  peak_burst_size : Nat
  pkt_len_adj : Int
  pkt_mode : Nat
deriving DecidableEq, Repr

/-- Observable external effects of a façade call, used to state ordering
properties ("the check precedes the vendor call"): descriptor
allocation, vendor registration, vendor hierarchy disable/enable, and
the default-RED-algorithm selection with its (node, profile) arguments. -/
inductive Ev where
  | alloc
  | vendorRegister
  | vendorDisable
  | vendorEnable
  | redAlgo (node : TmNode) (profile : Option ShaperProfile)
deriving DecidableEq, Repr

/-- Modelled from the spec: `roc_nix_tm_is_user_hierarchy_enabled` — the
per-port committed flag. -/
def roc_nix_tm_is_user_hierarchy_enabled (nix : Nix) : Bool :=
  nix.committed

/-- Modelled from the spec: `roc_nix_tm_node_get` — look up a node by ID
in the vendor registry. -/
def roc_nix_tm_node_get (nix : Nix) (node_id : Nat) : Option TmNode :=
  nix.nodes.find? (fun nd => nd.id == node_id)

/-- Modelled from the spec: `roc_nix_tm_shaper_profile_get` — look up a
shaper profile by ID in the vendor registry. -/
def roc_nix_tm_shaper_profile_get (nix : Nix) (shaper_id : Nat) :
    Option ShaperProfile :=
  nix.profiles.find? (fun p => p.id == shaper_id)

/-- Modelled from the spec: `roc_nix_tm_lvl_is_leaf` — the vendor query
that designates a level as the leaf level. -/
def roc_nix_tm_lvl_is_leaf (nix : Nix) (lvl : Nat) : Bool :=
  lvl == nix.leafLvl

/-- Modelled from the spec: `roc_nix_tm_leaf_cnt` — number of leaf nodes
currently registered. -/
def roc_nix_tm_leaf_cnt (nix : Nix) : Nat :=
  nix.nodes.countP (fun nd => nd.lvl == nix.leafLvl)

/-- Modelled from the spec: `roc_nix_tm_node_add` — vendor registration
of a node descriptor.  The spec leaves vendor-internal validation open;
`vendorOk` is the oracle for it.  On success the vendor takes custody of
the descriptor (appends it to the registry). -/
def roc_nix_tm_node_add (nix : Nix) (node : TmNode) (vendorOk : Bool) :
    Except TmErr Nix :=
  if vendorOk then .ok { nix with nodes := nix.nodes ++ [node] }
  else .error .vendor

/-- `oct_tm_sys_node_add` from tm.c.  Returns (error?, new state, effect
trace).  `allocOk` is the `plt_zmalloc` oracle, `vendorOk` the vendor
registration oracle.  Note the source guards the parent lookup with
`if (parent_node_id)` — a nonzero test, not a `!= INVALID` test. -/
def oct_tm_sys_node_add (nix : Nix) (node_id parent_node_id : Nat)
    (priority weight lvl : Nat) (params : TmNodeParams)
    (allocOk vendorOk : Bool) : Option TmErr × Nix × List Ev :=
  if roc_nix_tm_is_user_hierarchy_enabled nix then
    (some .committed, nix, [])
  else
    let parent_node : Option TmNode :=
      if parent_node_id ≠ 0 then roc_nix_tm_node_get nix parent_node_id
      else none
    let lvlRes : Option Nat :=
      match parent_node with
      | some p =>
        if lvl ≠ ROC_TM_LVL_ROOT then some ((p.lvl + 1) % U32)
        else if parent_node_id = ROC_NIX_TM_NODE_ID_INVALID then
          some ROC_TM_LVL_ROOT
        else none
      | none =>
        if parent_node_id = ROC_NIX_TM_NODE_ID_INVALID then
          some ROC_TM_LVL_ROOT
        else none
    match lvlRes with
    | none => (some .invalidParent, nix, [])
    | some lvl2 =>
      if allocOk then
        let tm_node : TmNode :=
          { id := node_id, parent_id := parent_node_id, lvl := lvl2,
            priority := priority, weight := weight,
            shaper_profile_id := params.shaper_profile_id }
        let profile :=
          roc_nix_tm_shaper_profile_get nix params.shaper_profile_id
        match roc_nix_tm_node_add nix tm_node vendorOk with
        | .ok nix2 =>
          (none, nix2,
            [Ev.alloc, Ev.vendorRegister, Ev.redAlgo tm_node profile])
        | .error e => (some e, nix, [Ev.alloc])
      else
        (some .noMem, nix, [])

/-- Modelled from the spec: `roc_nix_tm_node_delete` — vendor deletion
of a registered node (with `free_node = true` the vendor invokes the
free-callback).  `vendorOk` is the oracle for vendor-internal refusals. -/
def roc_nix_tm_node_delete (nix : Nix) (node_id : Nat) (vendorOk : Bool) :
    Except TmErr Nix :=
  if vendorOk then
    .ok { nix with nodes := nix.nodes.eraseP (fun nd => nd.id == node_id) }
  else .error .vendor

/-- `oct_tm_sys_node_delete` from tm.c. -/
def oct_tm_sys_node_delete (nix : Nix) (node_id : Nat) (vendorOk : Bool) :
    Option TmErr × Nix :=
  if roc_nix_tm_is_user_hierarchy_enabled nix then
    (some .committed, nix)
  else if node_id = ROC_NIX_TM_NODE_ID_INVALID then
    (some .invalidId, nix)
  else
    match roc_nix_tm_node_get nix node_id with
    | none => (some .notFound, nix)
    | some tm_node =>
      match roc_nix_tm_node_delete nix tm_node.id vendorOk with
      | .ok nix2 => (none, nix2)
      | .error e => (some e, nix)

/-- Modelled from the spec: `roc_nix_tm_shaper_profile_add` — vendor
registration of a shaper profile descriptor.  Per spec.md §4.5 the
vendor refuses structural mutation while the hierarchy is committed
(the façade itself performs no committed check for shaper creation);
other vendor-internal validation is the oracle `vendorOk`. -/
def roc_nix_tm_shaper_profile_add (nix : Nix) (profile : ShaperProfile)
    (vendorOk : Bool) : Except TmErr Nix :=
  if nix.committed then .error .committed
  else if vendorOk then
    .ok { nix with profiles := nix.profiles ++ [profile] }
  else .error .vendor

/-- `oct_tm_sys_shaper_profile_create` from tm.c.  The descriptor is
built by copying the caller parameters (u64 stores, hence `% U64`) and,
when `pkt_mode == 0` (byte mode), multiplying the four rate/burst fields
by 8 to convert to bit units. -/
def oct_tm_sys_shaper_profile_create (nix : Nix) (params : TmShaperParams)
    (allocOk vendorOk : Bool) : Option TmErr × Nix × List Ev :=
  match roc_nix_tm_shaper_profile_get nix params.shaper_id with
  | some _ => (some .alreadyExists, nix, [])
  | none =>
    if allocOk then
      let base : ShaperProfile :=
        { id := params.shaper_id,
          commit_rate := params.commit_rate % U64,
          commit_sz := params.commit_burst_size % U64,
          peak_rate := params.peak_rate % U64,
          peak_sz := params.peak_burst_size % U64,
          pkt_len_adj := params.pkt_len_adj,
          pkt_mode := params.pkt_mode }
      let profile : ShaperProfile :=
        if params.pkt_mode = 0 then
          { base with
            commit_rate := base.commit_rate * 8 % U64,
            peak_rate := base.peak_rate * 8 % U64,
            commit_sz := base.commit_sz * 8 % U64,
            peak_sz := base.peak_sz * 8 % U64 }
        else base
      match roc_nix_tm_shaper_profile_add nix profile vendorOk with
      | .ok nix2 => (none, nix2, [Ev.alloc, Ev.vendorRegister])
      | .error e => (some e, nix, [Ev.alloc])
    else
      (some .noMem, nix, [])

/-- Modelled from the spec: `roc_nix_tm_shaper_profile_delete` — vendor
deletion of a shaper profile.  Per spec.md §4.5 the vendor refuses while
the hierarchy is committed; per §4.3 it enforces "not referenced by any
node"; an unknown ID is a vendor refusal. -/
def roc_nix_tm_shaper_profile_delete (nix : Nix) (shaper_id : Nat) :
    Except TmErr Nix :=
  if nix.committed then .error .committed
  else
    match roc_nix_tm_shaper_profile_get nix shaper_id with
    | none => .error .vendor
    | some _ =>
      if nix.nodes.any (fun nd => nd.shaper_profile_id == shaper_id) then
        .error .vendor
      else
        .ok { nix with
              profiles := nix.profiles.eraseP (fun p => p.id == shaper_id) }

/-- `oct_tm_sys_shaper_profile_delete` from tm.c: delegate to the vendor
layer, surface its refusal. -/
def oct_tm_sys_shaper_profile_delete (nix : Nix) (shaper_id : Nat) :
    Option TmErr × Nix :=
  match roc_nix_tm_shaper_profile_delete nix shaper_id with
  | .ok nix2 => (none, nix2)
  | .error e => (some e, nix)

/-- Modelled from the spec: `roc_nix_tm_node_shaper_update` — in-place
rebinding of a node to an already-registered profile; supported while
the hierarchy is committed.  `rebindOk` is the oracle for vendor-internal
refusals; on success the registered node's binding is updated. -/
def roc_nix_tm_node_shaper_update (nix : Nix) (node_id profile_id : Nat)
    (rebindOk : Bool) : Except TmErr Nix :=
  if rebindOk then
    .ok { nix with
          nodes := nix.nodes.map (fun nd =>
            if nd.id == node_id then { nd with shaper_profile_id := profile_id }
            else nd) }
  else .error .vendor

/-- `oct_tm_sys_node_shaper_update` from tm.c: vendor rebind, then
re-resolve the node (fail `notFound` if absent) and the profile, then
re-invoke the default-RED-algorithm selection.  No committed-hierarchy
check is performed. -/
def oct_tm_sys_node_shaper_update (nix : Nix) (node_id profile_id : Nat)
    (rebindOk : Bool) : Option TmErr × Nix × List Ev :=
  match roc_nix_tm_node_shaper_update nix node_id profile_id rebindOk with
  | .error e => (some e, nix, [])
  | .ok nix2 =>
    match roc_nix_tm_node_get nix2 node_id with
    | none => (some .notFound, nix2, [])
    | some node =>
      let profile := roc_nix_tm_shaper_profile_get nix2 profile_id
      (none, nix2, [Ev.redAlgo node profile])

/-- `struct roc_nix_stats_queue`: the per-queue TX counters read by the
stats path (`tx_pkts`, `tx_octs`). -/
structure QStats where
  tx_pkts : Nat
  tx_octs : Nat
deriving DecidableEq, Repr

/-- `struct roc_nix_tm_node_stats`: the per-node drop counters read by
the stats path (`ROC_NIX_TM_NODE_PKTS_DROPPED`,
`ROC_NIX_TM_NODE_BYTES_DROPPED`). -/
structure NodeStats where
  pkts_dropped : Nat
  bytes_dropped : Nat
deriving DecidableEq, Repr

/-- `tm_stats_params_t`: the output statistics structure.  `n_pkts` and
`n_bytes` are the leaf TX totals; the `leaf.n_pkts_dropped[color]` /
`leaf.n_bytes_dropped[color]` arrays are modelled by one field per
color (green / yellow / red). -/
structure TmStatsParams where
  n_pkts : Nat
  n_bytes : Nat
  green_pkts_dropped : Nat
  yellow_pkts_dropped : Nat
  red_pkts_dropped : Nat
  green_bytes_dropped : Nat
  yellow_bytes_dropped : Nat
  red_bytes_dropped : Nat
deriving DecidableEq, Repr

/-- `oct_tm_sys_node_read_stats` from tm.c.  `qstatsGet` models
`roc_nix_stats_queue_get` (per-queue TX counters, `none` = nonzero rc)
and `nodeStatsGet` models `roc_nix_tm_node_stats_get` (per-node drop
counters).  `stats` is the caller's output structure as it stands before
the call; the returned structure is its state after the call. -/
def oct_tm_sys_node_read_stats (nix : Nix) (node_id : Nat)
    (qstatsGet : Nat → Option QStats) (nodeStatsGet : Nat → Option NodeStats)
    (stats : TmStatsParams) : Option TmErr × TmStatsParams :=
  match roc_nix_tm_node_get nix node_id with
  | none => (none, stats)
  | some node =>
    if roc_nix_tm_lvl_is_leaf nix node.lvl then
      match qstatsGet node.id with
      | some qstats =>
        (none, { stats with n_pkts := qstats.tx_pkts,
                            n_bytes := qstats.tx_octs })
      | none => (some .vendor, stats)
    else
      match nodeStatsGet node_id with
      | some ts =>
        (none, { stats with red_pkts_dropped := ts.pkts_dropped,
                            red_bytes_dropped := ts.bytes_dropped })
      | none => (some .vendor, stats)

/-- Modelled from the spec: `roc_nix_tm_hierarchy_disable` — clear the
committed flag; `disableOk` is the oracle for vendor failure. -/
def roc_nix_tm_hierarchy_disable (nix : Nix) (disableOk : Bool) :
    Except TmErr Nix :=
  if disableOk then .ok { nix with committed := false }
  else .error .vendor

/-- Modelled from the spec: `roc_nix_tm_hierarchy_enable` (user
hierarchy, suspend traffic = true) — set the committed flag; `enableOk`
is the oracle for vendor failure. -/
def roc_nix_tm_hierarchy_enable (nix : Nix) (enableOk : Bool) :
    Except TmErr Nix :=
  if enableOk then .ok { nix with committed := true }
  else .error .vendor

/-- `oct_tm_sys_start` from tm.c: refuse when a user hierarchy is
already committed; refuse (`precondition`) when the registered leaf
count is below the port's TX queue count; then vendor disable followed
by vendor enable.  The effect trace records the vendor
disable/enable calls. -/
def oct_tm_sys_start (nix : Nix) (num_tx_queues : Nat)
    (disableOk enableOk : Bool) : Option TmErr × Nix × List Ev :=
  if roc_nix_tm_is_user_hierarchy_enabled nix then
    (some .committed, nix, [])
  else if roc_nix_tm_leaf_cnt nix < num_tx_queues then
    (some .precondition, nix, [])
  else
    match roc_nix_tm_hierarchy_disable nix disableOk with
    | .error e => (some e, nix, [Ev.vendorDisable])
    | .ok nix2 =>
      match roc_nix_tm_hierarchy_enable nix2 enableOk with
      | .error e => (some e, nix2, [Ev.vendorDisable, Ev.vendorEnable])
      | .ok nix3 => (none, nix3, [Ev.vendorDisable, Ev.vendorEnable])

/-- `oct_tm_sys_stop` from tm.c: unconditionally disable the hierarchy. -/
def oct_tm_sys_stop (nix : Nix) (disableOk : Bool) : Option TmErr × Nix :=
  match roc_nix_tm_hierarchy_disable nix disableOk with
  | .ok nix2 => (none, nix2)
  | .error _ => (some .vendor, nix)

/-! ## Sample states used by concrete witnesses and counterexamples -/

/-- A profile registered before commit (id 1); pkt_mode 1 = packet mode. -/
def sampleProfile1 : ShaperProfile :=
  { id := 1, commit_rate := 8000, commit_sz := 16000, peak_rate := 12000,
    peak_sz := 24000, pkt_len_adj := 0, pkt_mode := 1 }

/-- A root node (id 100) and one leaf node (id 200) at the leaf level. -/
def sampleRoot : TmNode :=
  { id := 100, parent_id := ROC_NIX_TM_NODE_ID_INVALID, lvl := 0,
    priority := 0, weight := 1, shaper_profile_id := 1 }

/-- A leaf node (id 200) whose level is the leaf level of `committedNix`. -/
def sampleLeaf : TmNode :=
  { id := 200, parent_id := 100, lvl := 1, priority := 0, weight := 1,
    shaper_profile_id := 1 }

/-- A port whose hierarchy has been committed by a successful `start`:
one root, one leaf, one registered shaper profile. -/
def committedNix : Nix :=
  { committed := true, nodes := [sampleRoot, sampleLeaf],
    profiles := [sampleProfile1], leafLvl := 1 }

/-- The same hierarchy, uncommitted. -/
def uncommittedNix : Nix :=
  { committed := false, nodes := [sampleRoot, sampleLeaf],
    profiles := [sampleProfile1], leafLvl := 1 }

/-! ## Claim theorems -/

/-- **C7.** If the node lookup fails, `oct_tm_sys_node_read_stats`
returns 0 (success) and the output statistics structure is returned
exactly as it was passed in: no counter is written. -/
theorem node_read_stats_missing_node_noop (nix : Nix) (node_id : Nat)
    (qstatsGet : Nat → Option QStats) (nodeStatsGet : Nat → Option NodeStats)
    (stats : TmStatsParams)
    (h : roc_nix_tm_node_get nix node_id = none) :
    oct_tm_sys_node_read_stats nix node_id qstatsGet nodeStatsGet stats
      = (none, stats) := by
  simp [oct_tm_sys_node_read_stats, h]

/-- Witness for C7: reading stats for the absent node id 999 on the
committed sample port succeeds and leaves the counters untouched. -/
theorem node_read_stats_missing_node_noop_witness :
    oct_tm_sys_node_read_stats committedNix 999 (fun _ => none) (fun _ => none)
      { n_pkts := 3, n_bytes := 4, green_pkts_dropped := 5,
        yellow_pkts_dropped := 6, red_pkts_dropped := 7,
        green_bytes_dropped := 8, yellow_bytes_dropped := 9,
        red_bytes_dropped := 10 }
      = (none,
        { n_pkts := 3, n_bytes := 4, green_pkts_dropped := 5,
          yellow_pkts_dropped := 6, red_pkts_dropped := 7,
          green_bytes_dropped := 8, yellow_bytes_dropped := 9,
          red_bytes_dropped := 10 }) :=
  node_read_stats_missing_node_noop committedNix 999 (fun _ => none)
    (fun _ => none) _ (by decide)

/-- **C9.** A `shaper_profile_create` call whose profile ID is already
registered returns `already-exists`, with an empty effect trace (so no
descriptor was allocated) and the state unchanged; in particular the
previously registered profile is still the one registered for that ID. -/
theorem shaper_profile_create_duplicate (nix : Nix) (params : TmShaperParams)
    (allocOk vendorOk : Bool) (p : ShaperProfile)
    (h : roc_nix_tm_shaper_profile_get nix params.shaper_id = some p) :
    oct_tm_sys_shaper_profile_create nix params allocOk vendorOk
      = (some TmErr.alreadyExists, nix, [])
    ∧ roc_nix_tm_shaper_profile_get
        (oct_tm_sys_shaper_profile_create nix params allocOk vendorOk).2.1
        params.shaper_id = some p := by
  constructor
  · simp [oct_tm_sys_shaper_profile_create, h]
  · simp [oct_tm_sys_shaper_profile_create, h]

/-- Witness for C9: creating profile id 1 on the uncommitted sample port
(where id 1 is registered) fails with `already-exists` and profile id 1
is still `sampleProfile1`. -/
theorem shaper_profile_create_duplicate_witness :
    oct_tm_sys_shaper_profile_create uncommittedNix
      { shaper_id := 1, commit_rate := 5, commit_burst_size := 6,
        peak_rate := 7, peak_burst_size := 8, pkt_len_adj := 0,
        pkt_mode := 1 } true true
      = (some TmErr.alreadyExists, uncommittedNix, [])
    ∧ roc_nix_tm_shaper_profile_get
        (oct_tm_sys_shaper_profile_create uncommittedNix
          { shaper_id := 1, commit_rate := 5, commit_burst_size := 6,
            peak_rate := 7, peak_burst_size := 8, pkt_len_adj := 0,
            pkt_mode := 1 } true true).2.1 1 = some sampleProfile1 :=
  shaper_profile_create_duplicate uncommittedNix _ true true sampleProfile1
    (by decide)

/-- **C10.** A `node_add` call with `parent_node_id == 0` on an
uncommitted port always returns `invalid-parent` with the state
unchanged and an empty effect trace: the source guards the parent
lookup with `if (parent_node_id)` (a nonzero test), so the lookup is
skipped even when a node with ID 0 is registered, and 0 is also
distinct from the `INVALID` root sentinel (`UINT32_MAX`). -/
theorem node_add_parent_zero_invalid (nix : Nix)
    (node_id priority weight lvl : Nat) (params : TmNodeParams)
    (allocOk vendorOk : Bool) (hunc : nix.committed = false) :
    oct_tm_sys_node_add nix node_id 0 priority weight lvl params
      allocOk vendorOk = (some TmErr.invalidParent, nix, []) := by
  simp [oct_tm_sys_node_add, roc_nix_tm_is_user_hierarchy_enabled, hunc,
    ROC_NIX_TM_NODE_ID_INVALID]

/-- Witness for C10: on an uncommitted port that does contain a node
with ID 0, `node_add` with parent 0 still returns `invalid-parent`. -/
theorem node_add_parent_zero_invalid_witness :
    oct_tm_sys_node_add
      { committed := false,
        nodes := [{ id := 0, parent_id := ROC_NIX_TM_NODE_ID_INVALID,
                    lvl := 0, priority := 0, weight := 1,
                    shaper_profile_id := 1 }],
        profiles := [], leafLvl := 1 }
      7 0 0 1 2 { shaper_profile_id := 1 } true true
      = (some TmErr.invalidParent,
        { committed := false,
          nodes := [{ id := 0, parent_id := ROC_NIX_TM_NODE_ID_INVALID,
                      lvl := 0, priority := 0, weight := 1,
                      shaper_profile_id := 1 }],
          profiles := [], leafLvl := 1 }, []) :=
  node_add_parent_zero_invalid _ 7 0 1 2 { shaper_profile_id := 1 }
    true true (by decide)

/-- **C6.** `oct_tm_sys_node_shaper_update` performs no
committed-hierarchy check: the statement quantifies over every state,
committed or not (the witness exercises a committed one).  When the
vendor rebind succeeds (`rebindOk = true`, yielding state `nix2`) and
the node re-resolves in `nix2`, the call returns 0 and its one observable
effect is the default-RED-algorithm selection applied to the re-resolved
(node, profile) pair. -/
theorem node_shaper_update_red_algo (nix : Nix) (node_id profile_id : Nat)
    (nix2 : Nix) (node : TmNode)
    (hv : roc_nix_tm_node_shaper_update nix node_id profile_id true = .ok nix2)
    (hn : roc_nix_tm_node_get nix2 node_id = some node) :
    oct_tm_sys_node_shaper_update nix node_id profile_id true
      = (none, nix2,
        [Ev.redAlgo node (roc_nix_tm_shaper_profile_get nix2 profile_id)]) := by
  simp [oct_tm_sys_node_shaper_update, hv, hn]

/-- Witness for C6: on the committed sample port, rebinding leaf node
200 to profile 1 succeeds and re-invokes the RED-algorithm selection
with the re-resolved node and profile. -/
theorem node_shaper_update_red_algo_witness :
    oct_tm_sys_node_shaper_update committedNix 200 1 true
      = (none, committedNix,
        [Ev.redAlgo sampleLeaf (some sampleProfile1)]) := by
  have h := node_shaper_update_red_algo committedNix 200 1 committedNix
    sampleLeaf (by rfl) (by decide)
  simpa using h

/-- **C4.** On a port with no committed hierarchy, `start` fails with
`precondition` iff the registered leaf count is strictly below the
port's TX queue count, and in that case the effect trace is empty — the
check happened before any vendor disable/enable call — and the state is
unchanged. -/
theorem start_precondition_iff (nix : Nix) (num_tx_queues : Nat)
    (disableOk enableOk : Bool) (hunc : nix.committed = false) :
    ((oct_tm_sys_start nix num_tx_queues disableOk enableOk).1
        = some TmErr.precondition
      ↔ roc_nix_tm_leaf_cnt nix < num_tx_queues)
    ∧ (roc_nix_tm_leaf_cnt nix < num_tx_queues →
        oct_tm_sys_start nix num_tx_queues disableOk enableOk
          = (some TmErr.precondition, nix, [])) := by
  by_cases hlt : roc_nix_tm_leaf_cnt nix < num_tx_queues
  · simp [oct_tm_sys_start, roc_nix_tm_is_user_hierarchy_enabled, hunc, hlt]
  · cases disableOk <;> cases enableOk <;>
      simp [oct_tm_sys_start, roc_nix_tm_is_user_hierarchy_enabled, hunc, hlt,
        roc_nix_tm_hierarchy_disable, roc_nix_tm_hierarchy_enable]

/-- Witness for C4: the uncommitted sample port has one leaf but 4 TX
queues, so `start` fails with `precondition`, touching nothing. -/
theorem start_precondition_iff_witness :
    oct_tm_sys_start uncommittedNix 4 true true
      = (some TmErr.precondition, uncommittedNix, []) :=
  (start_precondition_iff uncommittedNix 4 true true (by decide)).2 (by decide)

/-- **C5.** A `node_add` call on an uncommitted port where the parent ID
is neither `INVALID` nor resolvable in the registry, and the caller did
not request the ROOT level, returns `invalid-parent` with an empty
effect trace (no descriptor allocated or registered) and the registry
unchanged. -/
theorem node_add_invalid_parent (nix : Nix)
    (node_id parent_node_id priority weight lvl : Nat)
    (params : TmNodeParams) (allocOk vendorOk : Bool)
    (hunc : nix.committed = false)
    (hlook : roc_nix_tm_node_get nix parent_node_id = none)
    (hlvl : lvl ≠ ROC_TM_LVL_ROOT)
    (hpid : parent_node_id ≠ ROC_NIX_TM_NODE_ID_INVALID) :
    oct_tm_sys_node_add nix node_id parent_node_id priority weight lvl
      params allocOk vendorOk = (some TmErr.invalidParent, nix, []) := by
  simp [oct_tm_sys_node_add, roc_nix_tm_is_user_hierarchy_enabled, hunc,
    hlook, hpid]

/-- Witness for C5 (scenario S4 of the spec): adding node 50 with parent
999 and level 2 on an empty uncommitted port returns `invalid-parent`
and the registry stays empty. -/
theorem node_add_invalid_parent_witness :
    oct_tm_sys_node_add
      { committed := false, nodes := [], profiles := [], leafLvl := 1 }
      50 999 0 1 2 { shaper_profile_id := 0 } true true
      = (some TmErr.invalidParent,
        { committed := false, nodes := [], profiles := [], leafLvl := 1 },
        []) :=
  node_add_invalid_parent _ 50 999 0 1 2 { shaper_profile_id := 0 } true true
    (by decide) (by decide) (by decide) (by decide)

/-- **C2.** Whenever `shaper_profile_create` succeeds, the stored
profile's `commit_rate`, `peak_rate`, `commit_sz` and `peak_sz` equal
the corresponding inputs multiplied by 8 when `pkt_mode == 0` (byte
mode), and equal the inputs unchanged otherwise.  The u64 stores cannot
have wrapped as long as each input × 8 fits in 64 bits. -/
theorem shaper_profile_create_byte_mode_conversion (nix : Nix)
    (params : TmShaperParams) (allocOk vendorOk : Bool)
    (hcr : params.commit_rate * 8 < U64)
    (hcs : params.commit_burst_size * 8 < U64)
    (hpr : params.peak_rate * 8 < U64)
    (hps : params.peak_burst_size * 8 < U64)
    (hok : (oct_tm_sys_shaper_profile_create nix params allocOk vendorOk).1
      = none) :
    ∃ p : ShaperProfile,
      (oct_tm_sys_shaper_profile_create nix params allocOk
          vendorOk).2.1.profiles = nix.profiles ++ [p]
      ∧ p.commit_rate = (if params.pkt_mode = 0 then params.commit_rate * 8
          else params.commit_rate)
      ∧ p.peak_rate = (if params.pkt_mode = 0 then params.peak_rate * 8
          else params.peak_rate)
      ∧ p.commit_sz = (if params.pkt_mode = 0 then
          params.commit_burst_size * 8 else params.commit_burst_size)
      ∧ p.peak_sz = (if params.pkt_mode = 0 then
          params.peak_burst_size * 8 else params.peak_burst_size) := by
  have e1 : params.commit_rate % U64 = params.commit_rate :=
    Nat.mod_eq_of_lt (by unfold U64 at hcr ⊢; omega)
  have e2 : params.commit_burst_size % U64 = params.commit_burst_size :=
    Nat.mod_eq_of_lt (by unfold U64 at hcs ⊢; omega)
  have e3 : params.peak_rate % U64 = params.peak_rate :=
    Nat.mod_eq_of_lt (by unfold U64 at hpr ⊢; omega)
  have e4 : params.peak_burst_size % U64 = params.peak_burst_size :=
    Nat.mod_eq_of_lt (by unfold U64 at hps ⊢; omega)
  have f1 : params.commit_rate * 8 % U64 = params.commit_rate * 8 :=
    Nat.mod_eq_of_lt hcr
  have f2 : params.commit_burst_size * 8 % U64 =
      params.commit_burst_size * 8 := Nat.mod_eq_of_lt hcs
  have f3 : params.peak_rate * 8 % U64 = params.peak_rate * 8 :=
    Nat.mod_eq_of_lt hpr
  have f4 : params.peak_burst_size * 8 % U64 = params.peak_burst_size * 8 :=
    Nat.mod_eq_of_lt hps
  unfold oct_tm_sys_shaper_profile_create at hok ⊢
  cases hg : roc_nix_tm_shaper_profile_get nix params.shaper_id with
  | some p => rw [hg] at hok; simp at hok
  | none =>
    rw [hg] at hok
    cases allocOk with
    | false => simp at hok
    | true =>
      unfold roc_nix_tm_shaper_profile_add at hok ⊢
      cases hcm : nix.committed with
      | true => rw [hcm] at hok; simp at hok
      | false =>
        rw [hcm] at hok
        cases vendorOk with
        | false => simp at hok
        | true =>
          refine ⟨if params.pkt_mode = 0 then
              { id := params.shaper_id,
                commit_rate := params.commit_rate % U64 * 8 % U64,
                commit_sz := params.commit_burst_size % U64 * 8 % U64,
                peak_rate := params.peak_rate % U64 * 8 % U64,
                peak_sz := params.peak_burst_size % U64 * 8 % U64,
                pkt_len_adj := params.pkt_len_adj,
                pkt_mode := params.pkt_mode }
            else
              { id := params.shaper_id,
                commit_rate := params.commit_rate % U64,
                commit_sz := params.commit_burst_size % U64,
                peak_rate := params.peak_rate % U64,
                peak_sz := params.peak_burst_size % U64,
                pkt_len_adj := params.pkt_len_adj,
                pkt_mode := params.pkt_mode }, ?_, ?_, ?_, ?_, ?_⟩
          · simp
          · by_cases hpm : params.pkt_mode = 0 <;> simp [hpm, e1, f1]
          · by_cases hpm : params.pkt_mode = 0 <;> simp [hpm, e3, f3]
          · by_cases hpm : params.pkt_mode = 0 <;> simp [hpm, e2, f2]
          · by_cases hpm : params.pkt_mode = 0 <;> simp [hpm, e4, f4]

/-- Witness for C2 (scenario S2 of the spec): a byte-mode profile with
rates/bursts 100/200/300/400 is stored as 800/1600/2400/3200. -/
theorem shaper_profile_create_byte_mode_conversion_witness :
    ∃ p : ShaperProfile,
      (oct_tm_sys_shaper_profile_create
        { committed := false, nodes := [], profiles := [], leafLvl := 1 }
        { shaper_id := 7, commit_rate := 100, commit_burst_size := 200,
          peak_rate := 300, peak_burst_size := 400, pkt_len_adj := 0,
          pkt_mode := 0 } true true).2.1.profiles = [] ++ [p]
      ∧ p.commit_rate = 100 * 8 ∧ p.peak_rate = 300 * 8
      ∧ p.commit_sz = 200 * 8 ∧ p.peak_sz = 400 * 8 := by
  have h := shaper_profile_create_byte_mode_conversion
    { committed := false, nodes := [], profiles := [], leafLvl := 1 }
    { shaper_id := 7, commit_rate := 100, commit_burst_size := 200,
      peak_rate := 300, peak_burst_size := 400, pkt_len_adj := 0,
      pkt_mode := 0 } true true (by decide) (by decide) (by decide)
    (by decide) (by decide)
  simpa using h

/-- **C3.** On an uncommitted port, whenever `node_add` succeeds, the
registered descriptor's level is derived: `parent.lvl + 1` when
`parent_id != INVALID` (regardless of the caller-supplied level) and
ROOT when `parent_id == INVALID`.  Well-formedness hypotheses on the
registry: no registered node uses the `INVALID` sentinel as its own ID
and no registered level is at the u32 maximum (both hold of every
registry the hardware can represent). -/
theorem node_add_level_derivation (nix : Nix)
    (node_id parent_node_id priority weight lvl : Nat)
    (params : TmNodeParams) (allocOk vendorOk : Bool)
    (hunc : nix.committed = false)
    (hb : ∀ nd ∈ nix.nodes, nd.lvl + 1 < U32)
    (hs : ∀ nd ∈ nix.nodes, nd.id ≠ ROC_NIX_TM_NODE_ID_INVALID)
    (hok : (oct_tm_sys_node_add nix node_id parent_node_id priority weight
      lvl params allocOk vendorOk).1 = none) :
    ∃ nd : TmNode,
      (oct_tm_sys_node_add nix node_id parent_node_id priority weight lvl
        params allocOk vendorOk).2.1.nodes = nix.nodes ++ [nd]
      ∧ nd.id = node_id
      ∧ (parent_node_id ≠ ROC_NIX_TM_NODE_ID_INVALID →
          ∃ p, roc_nix_tm_node_get nix parent_node_id = some p
            ∧ nd.lvl = p.lvl + 1)
      ∧ (parent_node_id = ROC_NIX_TM_NODE_ID_INVALID →
          nd.lvl = ROC_TM_LVL_ROOT) := by
  by_cases h0 : parent_node_id = 0
  · simp [oct_tm_sys_node_add, roc_nix_tm_is_user_hierarchy_enabled, hunc,
      h0, ROC_NIX_TM_NODE_ID_INVALID] at hok
  · by_cases hinv : parent_node_id = ROC_NIX_TM_NODE_ID_INVALID
    · have hne0 : ROC_NIX_TM_NODE_ID_INVALID ≠ 0 := by decide
      have hlook : roc_nix_tm_node_get nix parent_node_id = none := by
        cases hp : roc_nix_tm_node_get nix parent_node_id with
        | none => rfl
        | some p =>
          have hmem := List.mem_of_find?_eq_some hp
          have hpred := List.find?_some hp
          have hid : p.id = parent_node_id := by simpa using hpred
          exact absurd (hid.trans hinv) (hs p hmem)
      have hlook2 : roc_nix_tm_node_get nix ROC_NIX_TM_NODE_ID_INVALID
          = none := hinv ▸ hlook
      cases allocOk with
      | false =>
        simp [oct_tm_sys_node_add, roc_nix_tm_is_user_hierarchy_enabled,
          hunc, hlook2, hinv, hne0] at hok
      | true =>
        cases vendorOk with
        | false =>
          simp [oct_tm_sys_node_add, roc_nix_tm_is_user_hierarchy_enabled,
            roc_nix_tm_node_add, hunc, hlook2, hinv, hne0] at hok
        | true =>
          refine ⟨{ id := node_id, parent_id := parent_node_id,
                    lvl := ROC_TM_LVL_ROOT, priority := priority,
                    weight := weight,
                    shaper_profile_id := params.shaper_profile_id },
            ?_, rfl, ?_, ?_⟩
          · simp [oct_tm_sys_node_add, roc_nix_tm_is_user_hierarchy_enabled,
              roc_nix_tm_node_add, hunc, hlook2, hinv, hne0]
          · intro h; exact absurd hinv h
          · intro _; rfl
    · cases hp : roc_nix_tm_node_get nix parent_node_id with
      | none =>
        simp [oct_tm_sys_node_add, roc_nix_tm_is_user_hierarchy_enabled,
          hunc, h0, hinv, hp] at hok
      | some p =>
        by_cases hl : lvl = ROC_TM_LVL_ROOT
        · simp [oct_tm_sys_node_add, roc_nix_tm_is_user_hierarchy_enabled,
            hunc, h0, hinv, hp, hl] at hok
        · have hplt : p.lvl + 1 < U32 := hb p (List.mem_of_find?_eq_some hp)
          have hmod : (p.lvl + 1) % U32 = p.lvl + 1 := Nat.mod_eq_of_lt hplt
          cases allocOk with
          | false =>
            simp [oct_tm_sys_node_add, roc_nix_tm_is_user_hierarchy_enabled,
              hunc, h0, hp, hl] at hok
          | true =>
            cases vendorOk with
            | false =>
              simp [oct_tm_sys_node_add,
                roc_nix_tm_is_user_hierarchy_enabled, roc_nix_tm_node_add,
                hunc, h0, hp, hl] at hok
            | true =>
              refine ⟨{ id := node_id, parent_id := parent_node_id,
                        lvl := (p.lvl + 1) % U32, priority := priority,
                        weight := weight,
                        shaper_profile_id := params.shaper_profile_id },
                ?_, rfl, ?_, ?_⟩
              · simp [oct_tm_sys_node_add,
                  roc_nix_tm_is_user_hierarchy_enabled, roc_nix_tm_node_add,
                  hunc, h0, hp, hl]
              · intro _; exact ⟨p, rfl, hmod⟩
              · intro h; exact absurd h hinv

/-- Witness for C3: adding node 201 under parent 100 (level 0) with a
wrong caller-supplied level 5 succeeds and stores the derived level 1. -/
theorem node_add_level_derivation_witness :
    ∃ nd : TmNode,
      (oct_tm_sys_node_add uncommittedNix 201 100 0 1 5
        { shaper_profile_id := 1 } true true).2.1.nodes
        = uncommittedNix.nodes ++ [nd]
      ∧ nd.id = 201
      ∧ (100 ≠ ROC_NIX_TM_NODE_ID_INVALID →
          ∃ p, roc_nix_tm_node_get uncommittedNix 100 = some p
            ∧ nd.lvl = p.lvl + 1)
      ∧ (100 = ROC_NIX_TM_NODE_ID_INVALID → nd.lvl = ROC_TM_LVL_ROOT) :=
  node_add_level_derivation uncommittedNix 201 100 0 1 5
    { shaper_profile_id := 1 } true true (by decide) (by decide) (by decide)
    (by decide)

/-- **C1, counterexample.** On the committed sample port,
`shaper_profile_create` with the already-registered profile ID 1 returns
`already-exists`, not the `committed` error the claim requires of every
structural mutation: the duplicate-ID check in the source runs before
anything else, committed or not. -/
theorem committed_create_duplicate_counterexample :
    (oct_tm_sys_shaper_profile_create committedNix
      { shaper_id := 1, commit_rate := 5, commit_burst_size := 6,
        peak_rate := 7, peak_burst_size := 8, pkt_len_adj := 0,
        pkt_mode := 1 } true true).1 = some TmErr.alreadyExists
    ∧ some TmErr.alreadyExists ≠ some TmErr.committed := by
  decide

/-- **C1, amended.** On a committed port: `node_add`, `node_delete` and
`shaper_profile_delete` return the `committed` error;
`shaper_profile_create` returns `already-exists` when the profile ID is
already registered and otherwise (when allocation succeeds) the
`committed` error; in every case the hierarchy — node set and profile
set, indeed the whole state — is unchanged. -/
theorem committed_blocks_structural_mutations (nix : Nix)
    (hc : nix.committed = true)
    (node_id parent_node_id priority weight lvl shaper_id : Nat)
    (nparams : TmNodeParams) (sparams : TmShaperParams)
    (allocOk vendorOk : Bool) :
    oct_tm_sys_node_add nix node_id parent_node_id priority weight lvl
      nparams allocOk vendorOk = (some TmErr.committed, nix, [])
    ∧ oct_tm_sys_node_delete nix node_id vendorOk
      = (some TmErr.committed, nix)
    ∧ oct_tm_sys_shaper_profile_delete nix shaper_id
      = (some TmErr.committed, nix)
    ∧ (oct_tm_sys_shaper_profile_create nix sparams allocOk vendorOk).2.1
      = nix
    ∧ (roc_nix_tm_shaper_profile_get nix sparams.shaper_id = none →
        (oct_tm_sys_shaper_profile_create nix sparams true vendorOk).1
          = some TmErr.committed)
    ∧ (∀ p, roc_nix_tm_shaper_profile_get nix sparams.shaper_id = some p →
        (oct_tm_sys_shaper_profile_create nix sparams allocOk vendorOk).1
          = some TmErr.alreadyExists) := by
  refine ⟨?_, ?_, ?_, ?_, ?_, ?_⟩
  · simp [oct_tm_sys_node_add, roc_nix_tm_is_user_hierarchy_enabled, hc]
  · simp [oct_tm_sys_node_delete, roc_nix_tm_is_user_hierarchy_enabled, hc]
  · simp [oct_tm_sys_shaper_profile_delete,
      roc_nix_tm_shaper_profile_delete, hc]
  · cases hg : roc_nix_tm_shaper_profile_get nix sparams.shaper_id with
    | some p => simp [oct_tm_sys_shaper_profile_create, hg]
    | none =>
      cases allocOk <;>
        simp [oct_tm_sys_shaper_profile_create, hg,
          roc_nix_tm_shaper_profile_add, hc]
  · intro h
    simp [oct_tm_sys_shaper_profile_create, h,
      roc_nix_tm_shaper_profile_add, hc]
  · intro p h
    simp [oct_tm_sys_shaper_profile_create, h]

/-- Witness for the amended C1 on the committed sample port: node add
(fresh id 204 under 100), node delete (leaf 200), profile delete (id 1)
all return `committed`, and creating a fresh profile id 2 returns
`committed` as well. -/
theorem committed_blocks_structural_mutations_witness :
    oct_tm_sys_node_add committedNix 204 100 0 1 2 { shaper_profile_id := 1 }
      true true = (some TmErr.committed, committedNix, [])
    ∧ oct_tm_sys_node_delete committedNix 200 true
      = (some TmErr.committed, committedNix)
    ∧ oct_tm_sys_shaper_profile_delete committedNix 1
      = (some TmErr.committed, committedNix)
    ∧ (oct_tm_sys_shaper_profile_create committedNix
        { shaper_id := 2, commit_rate := 5, commit_burst_size := 6,
          peak_rate := 7, peak_burst_size := 8, pkt_len_adj := 0,
          pkt_mode := 1 } true true).1 = some TmErr.committed :=
  have h := committed_blocks_structural_mutations committedNix (by decide)
    204 100 0 1 2 1 { shaper_profile_id := 1 }
    { shaper_id := 2, commit_rate := 5, commit_burst_size := 6,
      peak_rate := 7, peak_burst_size := 8, pkt_len_adj := 0,
      pkt_mode := 1 } true true
  ⟨h.1, h.2.1, h.2.2.1, h.2.2.2.2.1 (by decide)⟩

/-- The all-zero output statistics structure, used by witnesses. -/
def zeroStats : TmStatsParams :=
  { n_pkts := 0, n_bytes := 0, green_pkts_dropped := 0,
    yellow_pkts_dropped := 0, red_pkts_dropped := 0,
    green_bytes_dropped := 0, yellow_bytes_dropped := 0,
    red_bytes_dropped := 0 }

/-- **C8.** For a found node: if its level is the leaf level, the
per-queue TX counters for queue index = the node's ID populate `n_pkts`
and `n_bytes` and every drop counter is left as passed in; otherwise the
per-node drop counters populate the dropped-packet and dropped-byte
totals of the RED color bucket and `n_pkts`/`n_bytes` (and the other
color buckets) are left as passed in. -/
theorem node_read_stats_dual_path (nix : Nix) (node_id : Nat)
    (qstatsGet : Nat → Option QStats) (nodeStatsGet : Nat → Option NodeStats)
    (stats : TmStatsParams) (node : TmNode)
    (h : roc_nix_tm_node_get nix node_id = some node) :
    (∀ qstats, roc_nix_tm_lvl_is_leaf nix node.lvl = true →
        qstatsGet node.id = some qstats →
        oct_tm_sys_node_read_stats nix node_id qstatsGet nodeStatsGet stats
          = (none, { stats with n_pkts := qstats.tx_pkts,
                                n_bytes := qstats.tx_octs }))
    ∧ (∀ ts, roc_nix_tm_lvl_is_leaf nix node.lvl = false →
        nodeStatsGet node_id = some ts →
        oct_tm_sys_node_read_stats nix node_id qstatsGet nodeStatsGet stats
          = (none, { stats with red_pkts_dropped := ts.pkts_dropped,
                                red_bytes_dropped := ts.bytes_dropped })) := by
  constructor
  · intro qstats hleaf hq
    simp [oct_tm_sys_node_read_stats, h, hleaf, hq]
  · intro ts hleaf hts
    simp [oct_tm_sys_node_read_stats, h, hleaf, hts]

/-- Witness for C8, both branches on the committed sample port: node 200
is a leaf, so its queue counters (11, 22) land in `n_pkts`/`n_bytes`;
node 100 is not, so its drop counters (33, 44) land in the RED bucket. -/
theorem node_read_stats_dual_path_witness :
    oct_tm_sys_node_read_stats committedNix 200
      (fun _ => some { tx_pkts := 11, tx_octs := 22 })
      (fun _ => some { pkts_dropped := 33, bytes_dropped := 44 }) zeroStats
      = (none, { zeroStats with n_pkts := 11, n_bytes := 22 })
    ∧ oct_tm_sys_node_read_stats committedNix 100
      (fun _ => some { tx_pkts := 11, tx_octs := 22 })
      (fun _ => some { pkts_dropped := 33, bytes_dropped := 44 }) zeroStats
      = (none, { zeroStats with red_pkts_dropped := 33,
                                red_bytes_dropped := 44 }) :=
  have h1 := node_read_stats_dual_path committedNix 200
    (fun _ => some { tx_pkts := 11, tx_octs := 22 })
    (fun _ => some { pkts_dropped := 33, bytes_dropped := 44 }) zeroStats
    sampleLeaf (by decide)
  have h2 := node_read_stats_dual_path committedNix 100
    (fun _ => some { tx_pkts := 11, tx_octs := 22 })
    (fun _ => some { pkts_dropped := 33, bytes_dropped := 44 }) zeroStats
    sampleRoot (by decide)
  ⟨h1.1 { tx_pkts := 11, tx_octs := 22 } (by decide) rfl,
    h2.2 { pkts_dropped := 33, bytes_dropped := 44 } (by decide) rfl⟩
